import Mathlib

/-!
Verification of the PromoPilot inventory/incentive aggregation pipeline.

Shallow embedding of the JavaScript source:
  - src/src/utils/common-utils.js   (createResponse, incrementCounter, calculateSummary)
  - src/src/utils/error-handler.js  (AppError, ErrorTypes)
  - src/tools/incentive-fetcher.js  (fetch_incentive_data, getIncentiveStatus,
                                     calculateIncentiveSummary)
  - src/unnamed/part_000            (inventory ingestor: getAgingCategory,
                                     calculateInventorySummary)

Modelling conventions:
  - JavaScript numbers are idealized as rationals; the special values NaN and
    the infinities that JavaScript division can produce are represented
    explicitly by the type JsNum where they can actually arise (Math.round of
    a quotient whose divisor may be zero).
  - JavaScript dates enter the functions under verification only through
    their numeric (millisecond) values, so dates are embedded as integers.
  - JavaScript objects used as count maps (obj[k] = (obj[k] || 0) + 1) are
    embedded as total functions with default 0; a key is present on the JS
    object exactly when its count is positive, so function equality coincides
    with equality of the underlying JS maps.
  - All embedded functions are total Lean functions, so "does not throw"
    claims reduce to the stated value-level facts.
-/

/-- JavaScript Math.round on a (finite) numeric argument: rounds half toward
positive infinity, i.e. Math.round(x) = floor(x + 1/2). -/
def jsRound (q : ℚ) : ℤ := ⌊q + 1 / 2⌋

/-- Result of a JavaScript arithmetic expression that may produce the IEEE
special values: Math.round(t / n) is NaN when t = n = 0, and infinite when
n = 0, t ≠ 0. -/
inductive JsNum where
  | nan : JsNum
  | posInf : JsNum
  | negInf : JsNum
  | val : ℤ → JsNum
deriving DecidableEq, Repr

/-- JavaScript Math.round(t / n) for a rational numerator t and a natural
divisor n (a .length in the source), including the division-by-zero
behaviour of IEEE arithmetic: 0/0 is NaN, t/0 is a signed infinity. -/
def jsDivRound (t : ℚ) (n : ℕ) : JsNum :=
  if n = 0 then
    if t = 0 then .nan else if 0 < t then .posInf else .negInf
  else .val (jsRound (t / n))

/-- getAgingCategory from src/unnamed/part_000 lines 134-139, on integer
days-on-lot. -/
def getAgingCategory (daysOnLot : ℤ) : String :=
  if daysOnLot ≤ 30 then "Fresh"
  else if daysOnLot ≤ 60 then "Aging"
  else if daysOnLot ≤ 90 then "Stale"
  else "Critical"

/-- getIncentiveStatus from src/tools/incentive-fetcher.js lines 132-136.
Date comparison in JavaScript coerces the dates to their millisecond
values, embedded here as integers. -/
def getIncentiveStatus (startDate endDate currentDate : ℤ) : String :=
  if currentDate < startDate then "Upcoming"
  else if currentDate > endDate then "Expired"
  else "Active"

/-- Position of a status string in the temporal progression
Upcoming → Active → Expired, used to state monotonicity of the status as
the clock advances. -/
def statusRank (s : String) : ℕ :=
  if s = "Upcoming" then 0 else if s = "Active" then 1 else 2

/-- A JavaScript field value as observed by calculateSummary: undefined,
null, a number, or a string. Group keys of numeric values are rendered
through Lean's rational printer (JavaScript renders them through its own
number formatter; both renderings are injective, and no verified property
depends on the concrete spelling of a numeric key). -/
inductive JsVal where
  | undefv : JsVal
  | nullv : JsVal
  | num : ℚ → JsVal
  | str : String → JsVal
deriving DecidableEq

/-- A JavaScript record (object) as accessed by calculateSummary: a total
map from field names to values, with absent fields reading as undefined. -/
def JRecord : Type := String → JsVal

/-- The property key JavaScript uses when a value is grouped:
undefined and null are skipped by the guard
value !== undefined && value !== null in calculateSummary; other values
are coerced to their string key. -/
def groupKey : JsVal → Option String
  | .undefv => none
  | .nullv => none
  | .num q => some (toString q)
  | .str s => some s

/-- Parse an unsigned decimal literal (digits, optionally with a decimal
point) as JavaScript Number does for such strings. -/
def parseUnsignedDec (s : String) : Option ℚ :=
  match s.splitOn "." with
  | [i] => (i.toNat?).map (fun n => (n : ℚ))
  | [i, f] =>
    if i.isEmpty ∧ f.isEmpty then none
    else do
      let ip ← if i.isEmpty then some 0 else i.toNat?
      let fp ← if f.isEmpty then some 0 else f.toNat?
      some ((ip : ℚ) + (fp : ℚ) / ((10 : ℚ) ^ f.length))
  | _ => none

/-- JavaScript Number(string) restricted to plain decimal literals; the
exotic string forms (hex, exponent, Infinity) are treated as non-numeric.
None plays the role of NaN. -/
def jsStringToNumber (s : String) : Option ℚ :=
  let t := s.trim
  if t.isEmpty then some 0
  else if t.startsWith "-" then (parseUnsignedDec (t.drop 1)).map Neg.neg
  else if t.startsWith "+" then parseUnsignedDec (t.drop 1)
  else parseUnsignedDec t

/-- The numeric coercion Number(value) || 0 applied to each summed field in
calculateSummary: undefined and non-numeric strings give NaN which the
|| 0 turns into 0; null coerces to 0; numbers pass through. -/
def toNumberOrZero : JsVal → ℚ
  | .undefv => 0
  | .nullv => 0
  | .num q => q
  | .str s => (jsStringToNumber s).getD 0

/-- Does the pattern occur at the head of the character list? -/
def leadsWith : List Char → List Char → Bool
  | [], _ => true
  | _ :: _, [] => false
  | c :: p, d :: s => c == d && leadsWith p s

/-- First occurrence of a pattern in a character list, returned as the
characters before it and the characters after it. -/
def findSplit (pat : List Char) : List Char → Option (List Char × List Char)
  | [] => if leadsWith pat [] then some ([], []) else none
  | c :: rest =>
    if leadsWith pat (c :: rest) then some ([], (c :: rest).drop pat.length)
    else (findSplit pat rest).map (fun pr => (c :: pr.1, pr.2))

/-- JavaScript String.prototype.replace with a string pattern: replaces only
the first occurrence, and returns the string unchanged when the pattern does
not occur. Used by calculateSummary as key.replace('total_', 'average_'). -/
def replaceFirst (s pat rep : String) : String :=
  match findSplit pat.data s.data with
  | none => s
  | some pr => ⟨pr.1 ++ rep.data ++ pr.2⟩

/-- The average key derived from a sum key in calculateSummary line 193. -/
def avgKeyOf (key : String) : String := replaceFirst key "total_" "average_"

/-- One sum specification of calculateSummary's config.sumFields. -/
structure SumField where
  field : String
  key : String
deriving DecidableEq

/-- The config argument of calculateSummary (src/src/utils/common-utils.js
lines 149-155) with the source's defaults. -/
structure SummaryConfig where
  totalKey : String
  groupByFields : List String := []
  sumFields : List SumField := []
  itemTransform : JRecord → JRecord := id

/-- The summary object calculateSummary builds. The JS object is a single
flat map; the model separates its four key namespaces (the total key, the
by_<field> count maps, the sum keys, and the derived average keys), which
agrees with the source whenever those key sets do not collide. Count maps
and sums default to 0 and averages to none for keys never written. -/
structure SummaryOut where
  total : ℕ
  byMap : String → String → ℕ
  sums : String → ℚ
  averages : String → Option ℤ

/-- incrementCounter (common-utils.js lines 101-104) specialized to the
group-count maps: obj[key] = (obj[key] || 0) + 1. -/
def bump (m : String → String → ℕ) (f k : String) : String → String → ℕ :=
  fun f2 k2 => if f2 = f ∧ k2 = k then m f k + 1 else m f2 k2

/-- The group-by body of calculateSummary's per-item loop (lines 176-181):
skip undefined/null values, otherwise increment the count map of the
field at the value's key. -/
def groupStep (t : JRecord) (acc : SummaryOut) (f : String) : SummaryOut :=
  match groupKey (t f) with
  | none => acc
  | some k => { acc with byMap := bump acc.byMap f k }

/-- The sum body of calculateSummary's per-item loop (lines 184-187). -/
def sumStep (t : JRecord) (acc : SummaryOut) (sf : SumField) : SummaryOut :=
  { acc with
    sums := fun k2 =>
      if k2 = sf.key then acc.sums sf.key + toNumberOrZero (t sf.field)
      else acc.sums k2 }

/-- One iteration of items.forEach in calculateSummary (lines 172-188). -/
def itemStep (cfg : SummaryConfig) (acc : SummaryOut) (item : JRecord) :
    SummaryOut :=
  let t := cfg.itemTransform item
  cfg.sumFields.foldl (sumStep t) (cfg.groupByFields.foldl (groupStep t) acc)

/-- One iteration of the average pass (lines 192-197): derive the average
key; if the replacement changed the key, write round(sum / n) under it. -/
def avgStep (n : ℕ) (acc : SummaryOut) (sf : SumField) : SummaryOut :=
  if avgKeyOf sf.key ≠ sf.key then
    { acc with
      averages := fun k2 =>
        if k2 = avgKeyOf sf.key then
          some (jsRound (acc.sums sf.key / (n : ℚ)))
        else acc.averages k2 }
  else acc

/-- calculateSummary from src/src/utils/common-utils.js lines 149-201:
initialization of the total, the (empty) group maps and the (zero) sums,
the per-item counting/summing pass, and the average pass guarded by
items.length > 0. -/
def calculateSummary (items : List JRecord) (cfg : SummaryConfig) :
    SummaryOut :=
  let init : SummaryOut :=
    { total := items.length
      byMap := fun _ _ => 0
      sums := fun _ => 0
      averages := fun _ => none }
  let afterItems := items.foldl (itemStep cfg) init
  if items.length > 0 then cfg.sumFields.foldl (avgStep items.length) afterItems
  else afterItems

/-- A processed incentive record as built by fetch_incentive_data lines
68-97, restricted to the fields the summary, the filters and the verified
properties observe (the pass-through fields id, program_name, description,
eligibility, region, customer flags and rates are carried verbatim by the
source and observed by nothing verified here). make and incentive_type may
be undefined (none) as in the source. -/
structure Incentive where
  make : Option String
  incentive_type : Option String
  value : ℚ
  status : String
  days_remaining : ℤ
  vehicle_line : String
deriving DecidableEq

/-- The property key JavaScript derives from a possibly-undefined string
value: property access coerces undefined to the key "undefined". -/
def jsKey (o : Option String) : String := o.getD "undefined"

/-- An entry of summary.high_value_incentives (incentive-fetcher.js lines
166-170). -/
structure HighValueEntry where
  vehicle_line : String
  value : ℚ
  type : Option String
deriving DecidableEq

/-- An entry of summary.expiring_soon (incentive-fetcher.js lines 175-179). -/
structure ExpiringEntry where
  vehicle_line : String
  days_remaining : ℤ
  value : ℚ
deriving DecidableEq

/-- The per-vehicle-line rollup of calculateIncentiveSummary (lines
184-195). types models the JS Set in insertion order; the source converts
it to an array before returning (lines 202-204), which is the same list. -/
structure IncLineAgg where
  count : ℕ
  total_value : ℚ
  max_value : ℚ
  types : List (Option String)
deriving DecidableEq

/-- JS Set.prototype.add: appends the element unless already present. -/
def setAdd (l : List (Option String)) (x : Option String) :
    List (Option String) :=
  if x ∈ l then l else l ++ [x]

/-- The summary object of calculateIncentiveSummary (lines 139-149).
by_make and by_type are count maps with default 0 (a key is present on the
JS object iff its count is positive); by_status is pre-initialized to 0 on
Active/Upcoming/Expired, the only statuses the pipeline produces. -/
structure IncSummary where
  total_incentives : ℕ
  by_make : String → ℕ
  by_type : String → ℕ
  by_status : String → ℕ
  total_value : ℚ
  average_value : JsNum
  vehicle_lines : String → Option IncLineAgg
  high_value_incentives : List HighValueEntry
  expiring_soon : List ExpiringEntry

/-- One iteration of incentives.forEach in calculateIncentiveSummary
(lines 151-196). -/
def incSummaryStep (s : IncSummary) (inc : Incentive) : IncSummary :=
  let mk := jsKey inc.make
  let ty := jsKey inc.incentive_type
  let line := inc.vehicle_line
  let old : IncLineAgg :=
    match s.vehicle_lines line with
    | some d => d
    | none => { count := 0, total_value := 0, max_value := 0, types := [] }
  { s with
    by_make := fun k => if k = mk then s.by_make mk + 1 else s.by_make k
    by_type := fun k => if k = ty then s.by_type ty + 1 else s.by_type k
    by_status := fun k =>
      if k = inc.status then s.by_status inc.status + 1 else s.by_status k
    total_value := s.total_value + inc.value
    high_value_incentives :=
      if inc.value > 2000 then
        s.high_value_incentives ++
          [{ vehicle_line := line, value := inc.value,
             type := inc.incentive_type }]
      else s.high_value_incentives
    expiring_soon :=
      if inc.status = "Active" ∧ inc.days_remaining ≤ 30 then
        s.expiring_soon ++
          [{ vehicle_line := line, days_remaining := inc.days_remaining,
             value := inc.value }]
      else s.expiring_soon
    vehicle_lines := fun l =>
      if l = line then
        some { count := old.count + 1
               total_value := old.total_value + inc.value
               max_value := max old.max_value inc.value
               types := setAdd old.types inc.incentive_type }
      else s.vehicle_lines l }

/-- calculateIncentiveSummary from src/tools/incentive-fetcher.js lines
138-207: initialization, the per-incentive loop, and the unguarded average
summary.average_value = Math.round(summary.total_value / incentives.length)
at line 199 (NaN on an empty list). -/
def calculateIncentiveSummary (incentives : List Incentive) : IncSummary :=
  let init : IncSummary :=
    { total_incentives := incentives.length
      by_make := fun _ => 0
      by_type := fun _ => 0
      by_status := fun _ => 0
      total_value := 0
      average_value := .val 0
      vehicle_lines := fun _ => none
      high_value_incentives := []
      expiring_soon := [] }
  let s := incentives.foldl incSummaryStep init
  { s with average_value := jsDivRound s.total_value incentives.length }

/-- A vehicle record as consumed by calculateInventorySummary
(src/unnamed/part_000 lines 141-189), restricted to the observed fields. -/
structure Vehicle where
  make : Option String
  aging_category : String
  days_on_lot : ℤ
  msrp : ℚ
  vehicle_line : String
deriving DecidableEq

/-- The per-vehicle-line rollup of calculateInventorySummary (lines
166-176 and the average pass at lines 183-186). -/
structure VehLineAgg where
  count : ℕ
  total_days : ℤ
  avg_days : JsNum
  total_value : ℚ
deriving DecidableEq

/-- The summary object of calculateInventorySummary (lines 142-149) plus
the running totalDays accumulator of line 151. by_aging is pre-initialized
to 0 on the four aging buckets, the only categories the pipeline produces. -/
structure InvSummary where
  total_vehicles : ℕ
  by_make : String → ℕ
  by_aging : String → ℕ
  average_days_on_lot : JsNum
  total_msrp_value : ℚ
  vehicle_lines : String → Option VehLineAgg
  totalDays : ℤ

/-- One iteration of inventory.forEach in calculateInventorySummary
(lines 153-177). -/
def invSummaryStep (s : InvSummary) (v : Vehicle) : InvSummary :=
  let mk := jsKey v.make
  let line := v.vehicle_line
  let old : VehLineAgg :=
    match s.vehicle_lines line with
    | some d => d
    | none => { count := 0, total_days := 0, avg_days := .val 0,
                total_value := 0 }
  { s with
    by_make := fun k => if k = mk then s.by_make mk + 1 else s.by_make k
    by_aging := fun k =>
      if k = v.aging_category then s.by_aging v.aging_category + 1
      else s.by_aging k
    totalDays := s.totalDays + v.days_on_lot
    total_msrp_value := s.total_msrp_value + v.msrp
    vehicle_lines := fun l =>
      if l = line then
        some { count := old.count + 1
               total_days := old.total_days + v.days_on_lot
               avg_days := old.avg_days
               total_value := old.total_value + v.msrp }
      else s.vehicle_lines l }

/-- calculateInventorySummary from src/unnamed/part_000 lines 141-189:
initialization, the per-vehicle loop, the unguarded average
summary.average_days_on_lot = Math.round(totalDays / inventory.length) at
line 180 (NaN on an empty list), and the per-line average pass. -/
def calculateInventorySummary (inventory : List Vehicle) : InvSummary :=
  let init : InvSummary :=
    { total_vehicles := inventory.length
      by_make := fun _ => 0
      by_aging := fun _ => 0
      average_days_on_lot := .val 0
      total_msrp_value := 0
      vehicle_lines := fun _ => none
      totalDays := 0 }
  let s := inventory.foldl invSummaryStep init
  { s with
    average_days_on_lot := jsDivRound (s.totalDays : ℚ) inventory.length
    vehicle_lines := fun l =>
      (s.vehicle_lines l).map (fun d =>
        { d with avg_days := jsDivRound (d.total_days : ℚ) d.count }) }

/-- An error value flowing into createResponse: either a plain JavaScript
Error (only a message) or an AppError from error-handler.js (message plus a
machine-readable type tag; severity and details are carried by the source
but observed by nothing verified here). -/
inductive JsError where
  | plain : String → JsError
  | app : String → String → JsError
deriving DecidableEq

/-- The message of an error value. -/
def JsError.message : JsError → String
  | .plain m => m
  | .app m _ => m

/-- The ErrorTypes table of src/src/utils/error-handler.js lines 6-14,
restricted to the tags the modelled pipeline can produce. -/
def ErrorTypes.VALIDATION : String := "VALIDATION_ERROR"

/-- FILE_SYSTEM tag from the ErrorTypes table. -/
def ErrorTypes.FILE_SYSTEM : String := "FILE_SYSTEM_ERROR"

/-- The data fields fetch_incentive_data spreads into its success envelope
(incentive-fetcher.js lines 115-120); all none on the failure path, where
handleError passes an empty data object. -/
structure FetchFields where
  data : Option (List Incentive) := none
  summary : Option IncSummary := none
  total_incentives : Option ℕ := none
  fetch_date : Option String := none

/-- The response envelope built by createResponse (common-utils.js lines
39-55) for the incentive pipeline: success flag, timestamp, the spread
data fields, and the error fields set only on failure. -/
structure Envelope where
  success : Bool
  timestamp : String
  data : Option (List Incentive)
  summary : Option IncSummary
  total_incentives : Option ℕ
  fetch_date : Option String
  error : Option String
  errorType : Option String

/-- createResponse from src/src/utils/common-utils.js lines 39-55. The
timestamp (new Date().toISOString()) is injected as an argument. The error
message falls back to 'Unknown error occurred' when the message is falsy,
and errorType is set only for AppError instances. -/
def createResponse (success : Bool) (fields : FetchFields)
    (error : Option JsError) (ts : String) : Envelope :=
  let errFields : Option String × Option String :=
    if success = false then
      match error with
      | some e =>
        (some (if e.message = "" then "Unknown error occurred" else e.message),
         match e with
         | .app _ t => some t
         | .plain _ => none)
      | none => (none, none)
    else (none, none)
  { success := success
    timestamp := ts
    data := fields.data
    summary := fields.summary
    total_incentives := fields.total_incentives
    fetch_date := fields.fetch_date
    error := errFields.1
    errorType := errFields.2 }

/-- A raw incentive object from the JSON payload, restricted to the fields
processIncentive reads into the modelled Incentive. Dates are embedded as
millisecond values; optional fields are none when absent or undefined. -/
structure RawIncentive where
  make : Option String
  model : Option String
  year : Option ℤ
  type : Option String
  incentive_type : Option String
  value : Option ℚ
  amount : Option ℚ
  start_date : ℤ
  end_date : ℤ

/-- JavaScript truthiness filter for a numeric operand of ||:
0 is falsy. -/
def truthyQ (o : Option ℚ) : Option ℚ :=
  o.bind (fun q => if q = 0 then none else some q)

/-- JavaScript truthiness filter for a string operand of ||:
the empty string is falsy. -/
def truthyS (o : Option String) : Option String :=
  o.bind (fun s => if s = "" then none else some s)

/-- formatVehicleLine from common-utils.js lines 86-88. -/
def formatVehicleLine (year make model : String) : String :=
  (year ++ " " ++ make ++ " " ++ model).trim

/-- String interpolation of a possibly-undefined value in a JS template
literal: undefined renders as "undefined". -/
def jsTemplate (o : Option String) : String := o.getD "undefined"

/-- The per-incentive mapping of fetch_incentive_data lines 68-96:
field aliasing with JS || (value || amount || 0, type || incentive_type),
status from getIncentiveStatus, days_remaining =
Math.ceil((end_date - currentDate) / 86400000), and the vehicle line. -/
def processIncentive (now : ℤ) (r : RawIncentive) : Incentive :=
  { make := r.make
    incentive_type := truthyS r.type |>.orElse (fun _ => r.incentive_type)
    value := (truthyQ r.value |>.orElse (fun _ => truthyQ r.amount)).getD 0
    status := getIncentiveStatus r.start_date r.end_date now
    days_remaining := ⌈((r.end_date - now : ℤ) : ℚ) / 86400000⌉
    vehicle_line :=
      formatVehicleLine (jsTemplate (r.year.map toString))
        (jsTemplate r.make) (jsTemplate r.model) }

/-- The shape of the parsed JSON payload as dispatched by
fetch_incentive_data lines 59-65: a top-level array, an object whose
incentives property is an array, or anything else (an object without an
incentives array, a scalar, ...), which the source rejects wholesale. -/
inductive RawData where
  | arr : List RawIncentive → RawData
  | objIncentives : List RawIncentive → RawData
  | malformed : RawData

/-- The pure core of fetch_incentive_data (incentive-fetcher.js lines
39-125) after the I/O boundary: fileExists stands for the
checkFileExists outcome, raw for the parsed JSON, now for the clock and
ts/fetchDate for the two timestamp reads. A missing file throws an
AppError (FILE_SYSTEM); a malformed container throws a plain Error
(line 64); both are caught and turned into a failure envelope by
handleError -> createResponse. The success path processes, filters,
summarizes and wraps the incentives. -/
def fetch_incentive_data (fileExists : Bool) (raw : RawData)
    (source_path : String) (now : ℤ) (ts fetchDate : String)
    (filter_active_only : Bool := true) (include_expired : Bool := false) :
    Envelope :=
  if fileExists = false then
    createResponse false {}
      (some (.app ("Incentive file not found: " ++ source_path)
        ErrorTypes.FILE_SYSTEM)) ts
  else
    match raw with
    | .malformed =>
      createResponse false {}
        (some (.plain
          "Invalid incentive data format. Expected array or object with incentives property."))
        ts
    | .arr incs | .objIncentives incs =>
      let processed := incs.map (processIncentive now)
      let f1 :=
        if filter_active_only then
          processed.filter (fun i => i.status = "Active")
        else processed
      let f2 :=
        if include_expired = false then
          f1.filter (fun i => i.status ≠ "Expired")
        else f1
      createResponse true
        { data := some f2
          summary := some (calculateIncentiveSummary f2)
          total_incentives := some f2.length
          fetch_date := some fetchDate } none ts

/-- Left-biased choice on optional values, used to describe the last-writer
value of the average pass. -/
def orO (a b : Option ℤ) : Option ℤ :=
  match a with
  | some v => some v
  | none => b

/-- The value the average pass of calculateSummary leaves under key K:
scanning config.sumFields, the last field whose derived average key is K
(and differs from its own key) wins; none when no field writes K. S is the
final sums store and n the item count. -/
def avgResult (S : String → ℚ) (n : ℕ) (K : String) :
    List SumField → Option ℤ
  | [] => none
  | sf :: L =>
    match avgResult S n K L with
    | some v => some v
    | none =>
      if avgKeyOf sf.key ≠ sf.key ∧ avgKeyOf sf.key = K then
        some (jsRound (S sf.key / (n : ℚ)))
      else none

/-- Concrete record: make Honda, used in order-independence evaluations. -/
def recHonda : JRecord :=
  fun f => if f = "make" then .str "Honda" else .undefv

/-- Concrete record: make Toyota. -/
def recToyota : JRecord :=
  fun f => if f = "make" then .str "Toyota" else .undefv

/-- Concrete config grouping by make. -/
def cfgMake : SummaryConfig :=
  { totalKey := "total_vehicles", groupByFields := ["make"] }

/-- Concrete record with price 3. -/
def recP3 : JRecord := fun f => if f = "price" then .num 3 else .undefv

/-- Concrete record with price 4. -/
def recP4 : JRecord := fun f => if f = "price" then .num 4 else .undefv

/-- Concrete config with one sum field keyed total_price. -/
def cfgPrice : SummaryConfig :=
  { totalKey := "total_items", sumFields := [⟨"price", "total_price"⟩] }

/-- Concrete record whose grouped field is null but whose summed field is 5. -/
def recNullMake : JRecord :=
  fun f => if f = "make" then .nullv else if f = "price" then .num 5 else .undefv

/-- Concrete config grouping by make and summing price. -/
def cfgMakePrice : SummaryConfig :=
  { totalKey := "total_items", groupByFields := ["make"],
    sumFields := [⟨"price", "total_price"⟩] }

/-- Concrete record with fields a = 1 and b = 2, for exercising colliding
average keys. -/
def recCE : JRecord :=
  fun f => if f = "a" then .num 1 else if f = "b" then .num 2 else .undefv

/-- Concrete config whose two sum keys rewrite to the same average key:
both total_average_X and average_total_X map to average_average_X under
key.replace('total_', 'average_'). -/
def cfgCE : SummaryConfig :=
  { totalKey := "t",
    sumFields := [⟨"a", "total_average_X"⟩, ⟨"b", "average_total_X"⟩] }

/-- Claim C4: for every integer days-on-lot d, the aging category is
"Fresh" iff d ≤ 30, "Aging" iff 31 ≤ d ≤ 60, "Stale" iff 61 ≤ d ≤ 90, and
"Critical" iff d > 90; boundaries inclusive on the lower bucket. -/
theorem claim_C4_aging_buckets (d : ℤ) :
    (getAgingCategory d = "Fresh" ↔ d ≤ 30) ∧
    (getAgingCategory d = "Aging" ↔ 31 ≤ d ∧ d ≤ 60) ∧
    (getAgingCategory d = "Stale" ↔ 61 ≤ d ∧ d ≤ 90) ∧
    (getAgingCategory d = "Critical" ↔ 90 < d) := by
  unfold getAgingCategory
  split_ifs with h1 h2 h3
  all_goals refine ⟨?_, ?_, ?_, ?_⟩
  all_goals constructor
  all_goals intro hx
  all_goals
    first
      | rfl
      | omega
      | exact absurd hx (by decide)
      | exact absurd hx (by omega)

/-- Claim C5 counterexample: on an inverted date range (start 10, end 5)
the code returns "Upcoming"/"Expired" in conflict with the claim's
unconditional characterization: at now = start = 10 the status is
"Expired", not "Active" as the boundary clause demands, and at now = 7
(now > end) the status is "Upcoming", not "Expired". -/
theorem claim_C5_counterexample :
    getIncentiveStatus 10 5 10 = "Expired" ∧ (10 : ℤ) = 10 ∧
      "Expired" ≠ "Active" ∧
    getIncentiveStatus 10 5 7 = "Upcoming" ∧ (7 : ℤ) > 5 ∧
      "Upcoming" ≠ "Expired" := by
  refine ⟨by decide, rfl, by decide, by decide, by decide, by decide⟩

/-- Claim C5 (amended): for every triple with start ≤ end, the status is
"Upcoming" iff now < start, "Expired" iff now > end, "Active" iff
start ≤ now ≤ end, and equality at either boundary yields "Active". -/
theorem claim_C5_status_policy (s e n : ℤ) (hse : s ≤ e) :
    (getIncentiveStatus s e n = "Upcoming" ↔ n < s) ∧
    (getIncentiveStatus s e n = "Expired" ↔ n > e) ∧
    (getIncentiveStatus s e n = "Active" ↔ s ≤ n ∧ n ≤ e) ∧
    (n = s ∨ n = e → getIncentiveStatus s e n = "Active") := by
  unfold getIncentiveStatus
  split_ifs with h1 h2
  all_goals refine ⟨?_, ?_, ?_, ?_⟩
  all_goals try constructor
  all_goals intro hx
  all_goals
    first
      | rfl
      | omega
      | exact absurd hx (by decide)
      | exact absurd hx (by omega)

/-- Claim C5 witness: a concrete instance of the amended status policy at
now = start = 0, end = 10, which yields "Active". -/
theorem claim_C5_witness :
    (0 : ℤ) ≤ 10 ∧ getIncentiveStatus 0 10 0 = "Active" :=
  ⟨by decide, (claim_C5_status_policy 0 10 0 (by decide)).2.2.2 (Or.inl rfl)⟩

/-- Claim C8: for fixed start and end dates, the status as a function of
now is monotone in the progression Upcoming → Active → Expired and never
moves backward as now increases. -/
theorem claim_C8_status_monotone (s e n1 n2 : ℤ) (h : n1 ≤ n2) :
    statusRank (getIncentiveStatus s e n1) ≤
      statusRank (getIncentiveStatus s e n2) := by
  unfold getIncentiveStatus
  split_ifs
  all_goals
    first
      | decide
      | exact False.elim (by omega)

/-- Claim C8 witness: concrete monotonicity instance, from before the start
(Upcoming) to after the end (Expired). -/
theorem claim_C8_witness :
    (-5 : ℤ) ≤ 20 ∧
      statusRank (getIncentiveStatus 0 10 (-5)) ≤
        statusRank (getIncentiveStatus 0 10 20) :=
  ⟨by decide, claim_C8_status_monotone 0 10 (-5) 20 (by decide)⟩

/-- Claim C1 (code bug): on an empty record set the domain summary builders
do not throw (they are total), and all counts and group maps are
zero/empty as claimed — but the averages are NaN, not 0: both
calculateInventorySummary and calculateIncentiveSummary overwrite their
0-initialized average fields with Math.round(0 / 0) = NaN. -/
theorem claim_C1_empty_averages_are_nan :
    (calculateInventorySummary []).average_days_on_lot = JsNum.nan ∧
    (calculateIncentiveSummary []).average_value = JsNum.nan ∧
    JsNum.nan ≠ JsNum.val 0 ∧
    (calculateInventorySummary []).total_vehicles = 0 ∧
    (calculateInventorySummary []).by_make = (fun _ => 0) ∧
    (calculateInventorySummary []).by_aging = (fun _ => 0) ∧
    (calculateInventorySummary []).total_msrp_value = 0 ∧
    (calculateInventorySummary []).vehicle_lines = (fun _ => none) ∧
    (calculateIncentiveSummary []).total_incentives = 0 ∧
    (calculateIncentiveSummary []).by_make = (fun _ => 0) ∧
    (calculateIncentiveSummary []).by_type = (fun _ => 0) ∧
    (calculateIncentiveSummary []).total_value = 0 ∧
    (calculateIncentiveSummary []).vehicle_lines = (fun _ => none) ∧
    (calculateIncentiveSummary []).high_value_incentives = [] ∧
    (calculateIncentiveSummary []).expiring_soon = [] := by
  repeat' apply And.intro
  all_goals first
    | rfl
    | decide

/-- Claim C2 (code bug): a malformed top-level incentive payload (neither
array nor object with an incentives array, e.g. the object without an
incentives property) makes the whole fetch fail as one batch — no partial
data — but the thrown error is a plain Error, so the failure envelope
carries no errorType at all, in particular not the VALIDATION tag. -/
theorem claim_C2_malformed_payload_untagged :
    (fetch_incentive_data true .malformed "./data/incentives.json" 0 "ts"
      "fd").success = false ∧
    (fetch_incentive_data true .malformed "./data/incentives.json" 0 "ts"
      "fd").error = some
        "Invalid incentive data format. Expected array or object with incentives property." ∧
    (fetch_incentive_data true .malformed "./data/incentives.json" 0 "ts"
      "fd").errorType = none ∧
    (fetch_incentive_data true .malformed "./data/incentives.json" 0 "ts"
      "fd").errorType ≠ some ErrorTypes.VALIDATION ∧
    (fetch_incentive_data true .malformed "./data/incentives.json" 0 "ts"
      "fd").data = none ∧
    (fetch_incentive_data true .malformed "./data/incentives.json" 0 "ts"
      "fd").summary = none ∧
    (fetch_incentive_data true .malformed "./data/incentives.json" 0 "ts"
      "fd").total_incentives = none := by
  refine ⟨rfl, ?_, rfl, by decide, rfl, rfl, rfl⟩
  rfl

theorem sumStep_byMap (t : JRecord) (s : SummaryOut) (sf : SumField) :
    (sumStep t s sf).byMap = s.byMap := rfl

theorem sumStep_total (t : JRecord) (s : SummaryOut) (sf : SumField) :
    (sumStep t s sf).total = s.total := rfl

theorem sumStep_averages (t : JRecord) (s : SummaryOut) (sf : SumField) :
    (sumStep t s sf).averages = s.averages := rfl

theorem sumFold_byMap (L : List SumField) (t : JRecord) (s : SummaryOut) :
    (L.foldl (sumStep t) s).byMap = s.byMap := by
  induction L generalizing s with
  | nil => rfl
  | cons a L ih => rw [List.foldl_cons, ih, sumStep_byMap]

theorem sumFold_total (L : List SumField) (t : JRecord) (s : SummaryOut) :
    (L.foldl (sumStep t) s).total = s.total := by
  induction L generalizing s with
  | nil => rfl
  | cons a L ih => rw [List.foldl_cons, ih, sumStep_total]

theorem sumFold_averages (L : List SumField) (t : JRecord) (s : SummaryOut) :
    (L.foldl (sumStep t) s).averages = s.averages := by
  induction L generalizing s with
  | nil => rfl
  | cons a L ih => rw [List.foldl_cons, ih, sumStep_averages]

theorem groupStep_total (t : JRecord) (s : SummaryOut) (f : String) :
    (groupStep t s f).total = s.total := by
  unfold groupStep; cases groupKey (t f) <;> rfl

theorem groupStep_sums (t : JRecord) (s : SummaryOut) (f : String) :
    (groupStep t s f).sums = s.sums := by
  unfold groupStep; cases groupKey (t f) <;> rfl

theorem groupStep_averages (t : JRecord) (s : SummaryOut) (f : String) :
    (groupStep t s f).averages = s.averages := by
  unfold groupStep; cases groupKey (t f) <;> rfl

theorem groupFold_total (fields : List String) (t : JRecord)
    (s : SummaryOut) : (fields.foldl (groupStep t) s).total = s.total := by
  induction fields generalizing s with
  | nil => rfl
  | cons g fields ih => rw [List.foldl_cons, ih, groupStep_total]

theorem groupFold_sums (fields : List String) (t : JRecord)
    (s : SummaryOut) : (fields.foldl (groupStep t) s).sums = s.sums := by
  induction fields generalizing s with
  | nil => rfl
  | cons g fields ih => rw [List.foldl_cons, ih, groupStep_sums]

theorem groupFold_averages (fields : List String) (t : JRecord)
    (s : SummaryOut) :
    (fields.foldl (groupStep t) s).averages = s.averages := by
  induction fields generalizing s with
  | nil => rfl
  | cons g fields ih => rw [List.foldl_cons, ih, groupStep_averages]

theorem groupStep_byMap (t : JRecord) (s : SummaryOut) (g f k : String) :
    (groupStep t s g).byMap f k =
      s.byMap f k + (if g = f ∧ groupKey (t f) = some k then 1 else 0) := by
  unfold groupStep
  by_cases hg : g = f
  · subst hg
    cases hk : groupKey (t g) with
    | none => simp [hk]
    | some kg =>
      show bump s.byMap g kg g k = _
      unfold bump
      by_cases hkk : k = kg
      · subst hkk; simp [hk]
      · simp [hk, hkk, Ne.symm hkk]
  · cases hk : groupKey (t g) with
    | none => simp [hg]
    | some kg =>
      show bump s.byMap g kg f k = _
      unfold bump
      have hfg : ¬(f = g) := fun h => hg h.symm
      simp [hg, hfg]

theorem groupFold_byMap (fields : List String) (t : JRecord)
    (s : SummaryOut) (f k : String) :
    (fields.foldl (groupStep t) s).byMap f k =
      s.byMap f k +
        (if groupKey (t f) = some k then fields.count f else 0) := by
  induction fields generalizing s with
  | nil => simp
  | cons g fields ih =>
    rw [List.foldl_cons, ih, groupStep_byMap]
    by_cases hg : g = f <;> by_cases hp : groupKey (t f) = some k <;>
      simp [hg, hp, List.count_cons] <;> omega

theorem itemStep_byMap (cfg : SummaryConfig) (s : SummaryOut) (it : JRecord)
    (f k : String) :
    (itemStep cfg s it).byMap f k =
      s.byMap f k +
        (if groupKey (cfg.itemTransform it f) = some k then
          cfg.groupByFields.count f else 0) := by
  unfold itemStep
  rw [sumFold_byMap, groupFold_byMap]

theorem itemStep_total (cfg : SummaryConfig) (s : SummaryOut)
    (it : JRecord) : (itemStep cfg s it).total = s.total := by
  unfold itemStep
  rw [sumFold_total, groupFold_total]

theorem itemStep_averages (cfg : SummaryConfig) (s : SummaryOut)
    (it : JRecord) : (itemStep cfg s it).averages = s.averages := by
  unfold itemStep
  rw [sumFold_averages, groupFold_averages]

theorem itemsFold_byMap (cfg : SummaryConfig) (items : List JRecord)
    (s : SummaryOut) (f k : String) :
    (items.foldl (itemStep cfg) s).byMap f k =
      s.byMap f k +
        (items.map (fun it =>
          if groupKey (cfg.itemTransform it f) = some k then
            cfg.groupByFields.count f else 0)).sum := by
  induction items generalizing s with
  | nil => simp
  | cons it items ih =>
    rw [List.foldl_cons, ih, itemStep_byMap, List.map_cons, List.sum_cons]
    omega

theorem itemsFold_total (cfg : SummaryConfig) (items : List JRecord)
    (s : SummaryOut) : (items.foldl (itemStep cfg) s).total = s.total := by
  induction items generalizing s with
  | nil => rfl
  | cons it items ih => rw [List.foldl_cons, ih, itemStep_total]

theorem itemsFold_averages (cfg : SummaryConfig) (items : List JRecord)
    (s : SummaryOut) :
    (items.foldl (itemStep cfg) s).averages = s.averages := by
  induction items generalizing s with
  | nil => rfl
  | cons it items ih => rw [List.foldl_cons, ih, itemStep_averages]

theorem avgStep_byMap (n : ℕ) (s : SummaryOut) (sf : SumField) :
    (avgStep n s sf).byMap = s.byMap := by
  unfold avgStep; split <;> rfl

theorem avgStep_total (n : ℕ) (s : SummaryOut) (sf : SumField) :
    (avgStep n s sf).total = s.total := by
  unfold avgStep; split <;> rfl

theorem avgStep_sums (n : ℕ) (s : SummaryOut) (sf : SumField) :
    (avgStep n s sf).sums = s.sums := by
  unfold avgStep; split <;> rfl

theorem avgFold_byMap (L : List SumField) (n : ℕ) (s : SummaryOut) :
    (L.foldl (avgStep n) s).byMap = s.byMap := by
  induction L generalizing s with
  | nil => rfl
  | cons a L ih => rw [List.foldl_cons, ih, avgStep_byMap]

theorem avgFold_total (L : List SumField) (n : ℕ) (s : SummaryOut) :
    (L.foldl (avgStep n) s).total = s.total := by
  induction L generalizing s with
  | nil => rfl
  | cons a L ih => rw [List.foldl_cons, ih, avgStep_total]

theorem avgFold_sums (L : List SumField) (n : ℕ) (s : SummaryOut) :
    (L.foldl (avgStep n) s).sums = s.sums := by
  induction L generalizing s with
  | nil => rfl
  | cons a L ih => rw [List.foldl_cons, ih, avgStep_sums]

theorem calculateSummary_total (items : List JRecord)
    (cfg : SummaryConfig) : (calculateSummary items cfg).total =
      items.length := by
  unfold calculateSummary
  split
  · rw [avgFold_total, itemsFold_total]
  · rw [itemsFold_total]

theorem calculateSummary_byMap (items : List JRecord) (cfg : SummaryConfig)
    (f k : String) :
    (calculateSummary items cfg).byMap f k =
      (items.map (fun it =>
        if groupKey (cfg.itemTransform it f) = some k then
          cfg.groupByFields.count f else 0)).sum := by
  unfold calculateSummary
  split
  · rw [avgFold_byMap, itemsFold_byMap]; simp
  · rw [itemsFold_byMap]; simp

/-- Claim C6: the by_<field> grouping count maps produced by the generic
aggregator are insertion-order-independent: any permutation of the input
record sequence yields identical group maps. -/
theorem claim_C6_group_maps_perm_invariant (cfg : SummaryConfig)
    (items items' : List JRecord) (hp : items.Perm items') :
    (calculateSummary items cfg).byMap =
      (calculateSummary items' cfg).byMap := by
  funext f k
  rw [calculateSummary_byMap, calculateSummary_byMap]
  exact (hp.map _).sum_eq

/-- Claim C6 witness: swapping two concrete records yields the same
by_make map. -/
theorem claim_C6_witness :
    ([recHonda, recToyota] : List JRecord).Perm [recToyota, recHonda] ∧
    (calculateSummary [recHonda, recToyota] cfgMake).byMap =
      (calculateSummary [recToyota, recHonda] cfgMake).byMap :=
  ⟨List.Perm.swap recToyota recHonda [],
   claim_C6_group_maps_perm_invariant cfgMake [recHonda, recToyota]
     [recToyota, recHonda] (List.Perm.swap recToyota recHonda [])⟩

/-- Claim C7: the generic aggregator on an empty record sequence returns a
zero total, empty group maps, zero sums, no average keys, and (being a
total function) does not throw. -/
theorem claim_C7_empty_aggregate (cfg : SummaryConfig) :
    (calculateSummary [] cfg).total = 0 ∧
    (calculateSummary [] cfg).byMap = (fun _ _ => 0) ∧
    (calculateSummary [] cfg).sums = (fun _ => 0) ∧
    (calculateSummary [] cfg).averages = (fun _ => none) :=
  ⟨rfl, rfl, rfl, rfl⟩

theorem calculateSummary_sums (items : List JRecord) (cfg : SummaryConfig) :
    (calculateSummary items cfg).sums =
      (items.foldl (itemStep cfg)
        { total := items.length, byMap := fun _ _ => 0, sums := fun _ => 0,
          averages := fun _ => none }).sums := by
  unfold calculateSummary
  split
  · rw [avgFold_sums]
  · rfl

theorem sum_map_ite (l : List JRecord) (p : JRecord → Prop)
    [DecidablePred p] (c : ℕ) :
    (l.map (fun x => if p x then c else 0)).sum =
      c * l.countP (fun x => decide (p x)) := by
  induction l with
  | nil => simp
  | cons x l ih =>
    rw [List.map_cons, List.sum_cons, ih, List.countP_cons]
    by_cases hx : p x <;> simp [hx] <;> ring

/-- Claim C10: a record whose grouped field value (after the transform) is
undefined or null is skipped by the by_<field> count map — the count at
key k only counts records whose value is exactly k — while the total
counts every record; concretely, one null-make record with price 5 gives
an all-zero by_make map, total 1, and sum 5, so the map's values sum to
strictly less than the total. -/
theorem claim_C10_null_values_skipped :
    (∀ (items : List JRecord) (cfg : SummaryConfig) (f k : String),
      (calculateSummary items cfg).byMap f k =
        cfg.groupByFields.count f *
          items.countP (fun it =>
            decide (groupKey (cfg.itemTransform it f) = some k))) ∧
    (∀ (items : List JRecord) (cfg : SummaryConfig),
      (calculateSummary items cfg).total = items.length) ∧
    (calculateSummary [recNullMake] cfgMakePrice).byMap "make" =
      (fun _ => 0) ∧
    (calculateSummary [recNullMake] cfgMakePrice).total = 1 ∧
    (calculateSummary [recNullMake] cfgMakePrice).sums "total_price" = 5 ∧
    (0 : ℕ) < 1 := by
  refine ⟨?_, ?_, ?_, rfl, ?_, by decide⟩
  · intro items cfg f k
    rw [calculateSummary_byMap, sum_map_ite]
  · intro items cfg
    exact calculateSummary_total items cfg
  · rfl
  · rw [calculateSummary_sums]
    simp [itemStep, sumStep, groupStep, cfgMakePrice, recNullMake, groupKey,
      toNumberOrZero]

theorem leadsWith_append_self (p r : List Char) :
    leadsWith p (p ++ r) = true := by
  induction p with
  | nil => rfl
  | cons c p ih => simp [leadsWith, ih]

theorem findSplit_append_self (p r : List Char) :
    findSplit p (p ++ r) = some ([], r) := by
  cases hp : p ++ r with
  | nil =>
    obtain ⟨h1, h2⟩ := List.append_eq_nil.mp hp
    subst h1; subst h2
    rfl
  | cons c rest =>
    simp only [findSplit]
    rw [← hp, leadsWith_append_self]
    simp [List.drop_left]

theorem avgKeyOf_total (rest : String) :
    avgKeyOf ("total_" ++ rest) = "average_" ++ rest := by
  unfold avgKeyOf replaceFirst
  have h : ("total_" ++ rest).data = "total_".data ++ rest.data := rfl
  rw [h, findSplit_append_self]
  rfl

theorem avgKey_ne_total (rest : String) :
    "average_" ++ rest ≠ "total_" ++ rest := by
  intro h
  have hd : "average_".data.length + rest.data.length =
      "total_".data.length + rest.data.length := by
    rw [← List.length_append, ← List.length_append]
    exact congrArg (fun s => s.data.length) h
  have h8 : "average_".data.length = 8 := rfl
  have h6 : "total_".data.length = 6 := rfl
  rw [h8, h6] at hd
  omega

theorem avgStep_averages_apply (n : ℕ) (s : SummaryOut) (sf : SumField)
    (K : String) :
    (avgStep n s sf).averages K =
      if avgKeyOf sf.key ≠ sf.key ∧ avgKeyOf sf.key = K then
        some (jsRound (s.sums sf.key / (n : ℚ)))
      else s.averages K := by
  unfold avgStep
  by_cases h1 : avgKeyOf sf.key ≠ sf.key
  · simp only [h1, if_true, ne_eq, not_false_eq_true, true_and]
    by_cases h2 : avgKeyOf sf.key = K
    · simp [h2]
    · have h2s : ¬(K = avgKeyOf sf.key) := fun h => h2 h.symm
      simp [h2, h2s]
  · simp [h1]

theorem avgFold_averages_eq (n : ℕ) (L : List SumField) (s : SummaryOut)
    (K : String) :
    (L.foldl (avgStep n) s).averages K =
      orO (avgResult s.sums n K L) (s.averages K) := by
  induction L generalizing s with
  | nil => rfl
  | cons sf L ih =>
    rw [List.foldl_cons, ih, avgStep_sums]
    cases h : avgResult s.sums n K L with
    | some v => simp only [avgResult, h, orO]
    | none =>
      rw [avgStep_averages_apply]
      simp only [avgResult, h]
      by_cases hq : avgKeyOf sf.key ≠ sf.key ∧ avgKeyOf sf.key = K
      · obtain ⟨hq1, hq2⟩ := hq
        have hKs : ¬(K = sf.key) := by rw [← hq2]; exact hq1
        simp [hq1, hq2, hKs, orO]
      · simp [hq, orO]

theorem avgResult_some (S : String → ℚ) (n : ℕ) (K : String)
    (L : List SumField) (h : avgResult S n K L ≠ none) :
    ∃ sf ∈ L, avgKeyOf sf.key ≠ sf.key ∧ avgKeyOf sf.key = K := by
  induction L with
  | nil => simp [avgResult] at h
  | cons sf L ih =>
    cases h2 : avgResult S n K L with
    | some w =>
      obtain ⟨sf', hm, hq⟩ := ih (by rw [h2]; simp)
      exact ⟨sf', List.mem_cons_of_mem sf hm, hq⟩
    | none =>
      simp only [avgResult, h2] at h
      by_cases hq : avgKeyOf sf.key ≠ sf.key ∧ avgKeyOf sf.key = K
      · exact ⟨sf, List.mem_cons_self sf L, hq⟩
      · simp [hq] at h

theorem avgResult_eq (S : String → ℚ) (n : ℕ) (K kk : String)
    (L : List SumField) (hkkK : avgKeyOf kk = K) (hkkne : avgKeyOf kk ≠ kk)
    (hmem : ∃ sf ∈ L, sf.key = kk)
    (huniq : ∀ sf ∈ L, avgKeyOf sf.key = K → sf.key = kk) :
    avgResult S n K L = some (jsRound (S kk / (n : ℚ))) := by
  induction L with
  | nil =>
    obtain ⟨sf, hm, _⟩ := hmem
    exact absurd hm (List.not_mem_nil sf)
  | cons a L ih =>
    by_cases hL : ∃ sf ∈ L, sf.key = kk
    · have hres := ih hL (fun sf hm hq => huniq sf (List.mem_cons_of_mem a hm) hq)
      simp only [avgResult, hres]
    · have ha : a.key = kk := by
        obtain ⟨sf, hm, hk⟩ := hmem
        rcases List.mem_cons.mp hm with h | h
        · subst h; exact hk
        · exact absurd ⟨sf, h, hk⟩ hL
      have hnone : avgResult S n K L = none := by
        cases h2 : avgResult S n K L with
        | none => rfl
        | some v =>
          obtain ⟨sf', hm', hq1, hq2⟩ :=
            avgResult_some S n K L (by rw [h2]; simp)
          exact absurd ⟨sf', hm', huniq sf' (List.mem_cons_of_mem a hm') hq2⟩ hL
      have hKkk : ¬(K = kk) := by rw [← hkkK]; exact hkkne
      simp only [avgResult, hnone, ha, hkkK, hkkne]
      simp [hKkk]

/-- Claim C3 (amended): for every non-empty record sequence and sum
specification whose output key is total_<rest>, the aggregator emits the
companion average_<rest> key equal to round(total / count), provided no
other sum field's key rewrites to the same average key (the average pass
writes in spec order, so a later colliding field would overwrite the
value); on an empty record set the average keys are all omitted and no
division by zero occurs. -/
theorem claim_C3_average_companion :
    (∀ (items : List JRecord) (cfg : SummaryConfig) (sf : SumField)
        (rest : String),
        items ≠ [] →
        sf ∈ cfg.sumFields →
        sf.key = "total_" ++ rest →
        (∀ sf' ∈ cfg.sumFields,
          avgKeyOf sf'.key = "average_" ++ rest → sf'.key = sf.key) →
        (calculateSummary items cfg).averages ("average_" ++ rest) =
          some (jsRound ((calculateSummary items cfg).sums sf.key /
            (items.length : ℚ)))) ∧
    (∀ cfg : SummaryConfig,
      (calculateSummary [] cfg).averages = fun _ => none) := by
  constructor
  · intro items cfg sf rest hne hmem hkey huniq
    have hlen : items.length > 0 := List.length_pos.mpr hne
    unfold calculateSummary
    rw [if_pos hlen, avgFold_averages_eq, itemsFold_averages, avgFold_sums]
    have hkkK : avgKeyOf sf.key = "average_" ++ rest := by
      rw [hkey]; exact avgKeyOf_total rest
    have hkkne : avgKeyOf sf.key ≠ sf.key := by
      rw [hkey, avgKeyOf_total rest]; exact avgKey_ne_total rest
    rw [avgResult_eq _ _ _ sf.key cfg.sumFields hkkK hkkne
      ⟨sf, hmem, rfl⟩ huniq]
    rfl
  · intro cfg
    rfl

theorem calculateSummary_averages (items : List JRecord)
    (cfg : SummaryConfig) (K : String) (h : items.length > 0) :
    (calculateSummary items cfg).averages K =
      orO (avgResult (calculateSummary items cfg).sums items.length K
        cfg.sumFields) none := by
  unfold calculateSummary
  rw [if_pos h, avgFold_averages_eq, itemsFold_averages, avgFold_sums]

/-- Claim C3 counterexample: with sum keys total_average_X and
average_total_X, both rewrite to the average key average_average_X; the
later field overwrites the earlier one, so the emitted average_average_X
is round of the second sum (2), not round(total_average_X / count) = 1 as
the claim demands for the first field. -/
theorem claim_C3_counterexample :
    (⟨"a", "total_average_X"⟩ : SumField) ∈ cfgCE.sumFields ∧
    ("total_average_X" : String) = "total_" ++ "average_X" ∧
    ([recCE] : List JRecord) ≠ [] ∧
    (calculateSummary [recCE] cfgCE).sums "total_average_X" = 1 ∧
    jsRound ((1 : ℚ) / (List.length [recCE] : ℚ)) = 1 ∧
    (calculateSummary [recCE] cfgCE).averages ("average_" ++ "average_X") =
      some 2 ∧
    some (2 : ℤ) ≠ some (1 : ℤ) := by
  refine ⟨by decide, rfl, List.cons_ne_nil _ _, ?_, ?_, ?_, by decide⟩
  · rw [calculateSummary_sums]
    simp [itemStep, sumStep, groupStep, cfgCE, recCE, toNumberOrZero]
  · norm_num [jsRound]
  · rw [calculateSummary_averages _ _ _ (by decide)]
    have havg : ∀ (S : String → ℚ) (n : ℕ),
        avgResult S n ("average_" ++ "average_X")
          [⟨"a", "total_average_X"⟩, ⟨"b", "average_total_X"⟩] =
          some (jsRound (S "average_total_X" / (n : ℚ))) := by
      intro S n
      simp [avgResult,
        show avgKeyOf "average_total_X" ≠ "average_total_X" ∧
          avgKeyOf "average_total_X" = "average_" ++ "average_X" from
            by decide]
    rw [show cfgCE.sumFields =
      [⟨"a", "total_average_X"⟩, ⟨"b", "average_total_X"⟩] from rfl]
    rw [havg]
    have hS : (calculateSummary [recCE] cfgCE).sums "average_total_X" = 2 := by
      rw [calculateSummary_sums]
      simp [itemStep, sumStep, groupStep, cfgCE, recCE, toNumberOrZero]
    rw [hS]
    simp only [orO]
    norm_num [jsRound]

/-- Claim C3 witness: two records with prices 3 and 4 and sum key
total_price produce average_price = round(7/2) = 4 via the amended
theorem. -/
theorem claim_C3_witness :
    ([recP3, recP4] : List JRecord) ≠ [] ∧
    (calculateSummary [recP3, recP4] cfgPrice).averages
        ("average_" ++ "price") =
      some (jsRound ((calculateSummary [recP3, recP4] cfgPrice).sums
        ("total_" ++ "price") / (List.length [recP3, recP4] : ℚ))) :=
  ⟨List.cons_ne_nil _ _,
   claim_C3_average_companion.1 [recP3, recP4] cfgPrice
     ⟨"price", "total_" ++ "price"⟩ "price" (List.cons_ne_nil _ _)
     (by decide) rfl (by decide)⟩

/-- Claim C9: every envelope the incentive pipeline produces carries the
timestamp, and exactly one branch is populated — data/summary fields on
success with no error fields, or an error message with no data fields on
failure; and for createResponse in general, the machine-readable errorType
is present exactly when the operation failed with a recognized AppError. -/
theorem claim_C9_envelope_invariant :
    (∀ (fe : Bool) (raw : RawData) (sp : String) (now : ℤ) (ts fd : String)
        (fao ie : Bool),
      (fetch_incentive_data fe raw sp now ts fd fao ie).timestamp = ts ∧
      ((fetch_incentive_data fe raw sp now ts fd fao ie).success = true →
        (fetch_incentive_data fe raw sp now ts fd fao ie).error = none ∧
        (fetch_incentive_data fe raw sp now ts fd fao ie).errorType = none ∧
        ((fetch_incentive_data fe raw sp now ts fd fao ie).data).isSome ∧
        ((fetch_incentive_data fe raw sp now ts fd fao ie).summary).isSome ∧
        ((fetch_incentive_data fe raw sp now ts fd
          fao ie).total_incentives).isSome) ∧
      ((fetch_incentive_data fe raw sp now ts fd fao ie).success = false →
        (fetch_incentive_data fe raw sp now ts fd fao ie).data = none ∧
        (fetch_incentive_data fe raw sp now ts fd fao ie).summary = none ∧
        (fetch_incentive_data fe raw sp now ts fd
          fao ie).total_incentives = none ∧
        ((fetch_incentive_data fe raw sp now ts fd fao ie).error).isSome)) ∧
    (∀ (success : Bool) (fields : FetchFields) (e : JsError) (ts : String),
      (createResponse success fields (some e) ts).timestamp = ts ∧
      ((createResponse success fields (some e) ts).errorType.isSome ↔
        success = false ∧ ∃ m t, e = .app m t) ∧
      (success = false →
        ((createResponse success fields (some e) ts).error).isSome)) := by
  constructor
  · intro fe raw sp now ts fd fao ie
    cases fe <;> cases raw <;>
      simp [fetch_incentive_data, createResponse, JsError.message]
  · intro success fields e ts
    cases success <;> cases e <;>
      simp [createResponse, JsError.message]

/-- Claim C9 witness: a concrete success envelope (empty incentive array)
and a concrete failure envelope (malformed payload) exhibit the two
branches of the invariant. -/
theorem claim_C9_witness :
    (fetch_incentive_data true (.arr []) "p" 0 "ts" "fd").success = true ∧
    (fetch_incentive_data true (.arr []) "p" 0 "ts" "fd").error = none ∧
    (fetch_incentive_data true .malformed "p" 0 "ts" "fd").success = false ∧
    (fetch_incentive_data true .malformed "p" 0 "ts" "fd").data = none :=
  ⟨rfl,
   ((claim_C9_envelope_invariant.1 true (.arr []) "p" 0 "ts" "fd" true
     false).2.1 rfl).1,
   rfl,
   ((claim_C9_envelope_invariant.1 true .malformed "p" 0 "ts" "fd" true
     false).2.2 rfl).1⟩
